import Mathlib

/-!
# CMRender: startup, point-field generator, frame driver and debug callback

A shallow embedding of `src/CMRender/main.cpp`.

* `main` is embedded as a function from the answers of the external services
  (window system, extension loader, shader compiler and linker, close flag) to
  the sequence of service calls it issues and its exit code.
* The draws `std::rand() / float(RAND_MAX)` and the arm index of the generator are
  embedded in binary32 arithmetic (`binary32`, over the rationals).
* The rest of the point-field generator and the View matrix are embedded over an
  ordered field `R`; there the C `float` arithmetic is read as exact arithmetic in
  `R`, and the libm functions (`sin`, `cos`, `pow`, `sqrt`) are parameters,
  instantiated with the real functions in the theorems.
* `debugCallbackARB` is embedded as a function from the message to what it
  writes to `std::cerr` and whether it throws.
-/

namespace CMRender

/-! ## Service calls observed from `main` -/

/-- The three shader stages compiled at startup. -/
inductive Stage where
  | vertex
  | geometry
  | fragment
deriving DecidableEq, Repr

/-- One call of `main` to an external service (GLFW, GLEW, OpenGL, ImGui, the C++ streams).
The calls the claims are about carry their arguments or their answer; every other call is
`other`, with the name of the function. -/
inductive Call where
  | glfwInit
  | glfwCreateWindow (width height : Nat)
  | glfwTerminate
  | glewInit
  | glfwDestroyWindow
  | cout (text : String)
  | cerr (text : String)
  | cerrInfoLog
  | glDebugMessageCallbackARB
  | glCompileShader (stage : Stage)
  | glGetShaderiv (stage : Stage)
  | glLinkProgram
  | glGetProgramiv
  | glBufferData (bytes : Nat)
  | glfwWindowShouldClose (answer : Bool)
  | glUniformMatrix4fv (name : String)
  | glDrawArrays (first count : Nat)
  | glfwSwapBuffers
  | other (name : String)
deriving DecidableEq, Repr

/-- The answers of the external services during one run of `main`. -/
structure Env where
  /-- `glfwInit()` returned something other than `GL_FALSE`. -/
  glfwInitOk : Bool
  /-- `glfwCreateWindow` returned a non-null window. -/
  windowOk : Bool
  /-- `glewInit()` returned 0 (`GLEW_OK`). -/
  glewInitOk : Bool
  /-- `glfwExtensionSupported("GL_ARB_debug_output")`. -/
  debugOutput : Bool
  /-- `GL_COMPILE_STATUS` of the vertex shader is not `GL_FALSE`. -/
  vertexOk : Bool
  /-- `GL_COMPILE_STATUS` of the geometry shader is not `GL_FALSE`. -/
  geometryOk : Bool
  /-- `GL_COMPILE_STATUS` of the fragment shader is not `GL_FALSE`. -/
  fragmentOk : Bool
  /-- `GL_LINK_STATUS` of the program is not `GL_FALSE`. -/
  linkOk : Bool
  /-- The successive answers of `glfwWindowShouldClose`, as far as the run is observed. -/
  shouldClose : List Bool
deriving DecidableEq, Repr

/-- What a run of `main` does: the calls issued, in order, and the exit code
(`none`: the observed answers of `glfwWindowShouldClose` ended with the loop still running). -/
structure Run where
  trace : List Call
  exit : Option Int
deriving DecidableEq, Repr

/-- Sequencing: the calls `pre` were issued, then the run `r` followed. -/
def Run.after (pre : List Call) (r : Run) : Run :=
  ⟨pre ++ r.trace, r.exit⟩

/-- The constant `const int particles = 128 * 1024;` (main.cpp:214). -/
def particles : Nat := 128 * 1024

/-- The size `sizeof(GLfloat)` of one float, in bytes. -/
def sizeofGLfloat : Nat := 4

/-- The helper `check_shader_compile_status` (main.cpp:34-46): the calls it issues and its result. -/
def check_shader_compile_status (stage : Stage) (status : Bool) : List Call × Bool :=
  if status = false then
    ([Call.glGetShaderiv stage, Call.glGetShaderiv stage, Call.other "glGetShaderInfoLog",
      Call.cerrInfoLog], false)
  else
    ([Call.glGetShaderiv stage], true)

/-- The helper `check_program_link_status` (main.cpp:49-61): the calls it issues and its result. -/
def check_program_link_status (status : Bool) : List Call × Bool :=
  if status = false then
    ([Call.glGetProgramiv, Call.glGetProgramiv, Call.other "glGetProgramInfoLog",
      Call.cerrInfoLog], false)
  else
    ([Call.glGetProgramiv], true)

/-- The body of one iteration of the main loop (main.cpp:258-322). -/
def frameCalls : List Call :=
  [Call.other "glfwPollEvents", Call.other "ImGui_ImplGlfwGL3_NewFrame",
   Call.other "ImGui::Text", Call.other "ImGui::SliderFloat", Call.other "ImGui::ColorEdit3",
   Call.other "ImGui::Button", Call.other "ImGui::Button", Call.other "ImGui::Text",
   Call.other "glfwGetTime", Call.other "glClear", Call.other "glUseProgram",
   Call.glUniformMatrix4fv "View", Call.glUniformMatrix4fv "Projection",
   Call.other "glBindVertexArray", Call.glDrawArrays 0 particles,
   Call.other "glfwGetFramebufferSize", Call.other "glViewport", Call.other "ImGui::Render",
   Call.glfwSwapBuffers]

/-- The clean-up after the loop (main.cpp:329-344). -/
def cleanupCalls : List Call :=
  [Call.other "glDeleteVertexArrays", Call.other "glDeleteBuffers",
   Call.other "glDetachShader", Call.other "glDetachShader", Call.other "glDetachShader",
   Call.other "glDeleteShader", Call.other "glDeleteShader", Call.other "glDeleteShader",
   Call.other "glDeleteProgram", Call.other "ImGui_ImplGlfwGL3_Shutdown",
   Call.glfwDestroyWindow, Call.glfwTerminate]

/-- The main loop `while (!glfwWindowShouldClose(window)) { ... }` followed by the
clean-up and `return 0` (main.cpp:256-344), run against the observed answers. -/
def renderLoop : List Bool → Run
  | [] => ⟨[], none⟩
  | true :: _ => ⟨Call.glfwWindowShouldClose true :: cleanupCalls, some 0⟩
  | false :: rest =>
      Run.after (Call.glfwWindowShouldClose false :: frameCalls) (renderLoop rest)

/-- Program link, geometry setup and everything after it (main.cpp:182-345).
The result of `check_program_link_status` is discarded, as in the source. The generator
loop of main.cpp:214-233 issues no call but `std::rand`; it is embedded as `generate`. -/
def linkAndRun (e : Env) : Run :=
  let link := check_program_link_status e.linkOk
  Run.after
    ([Call.other "glCreateProgram", Call.other "glAttachShader", Call.other "glAttachShader",
      Call.other "glAttachShader", Call.glLinkProgram] ++ link.1 ++
     [Call.other "glGetUniformLocation", Call.other "glGetUniformLocation",
      Call.other "glGenVertexArrays", Call.other "glBindVertexArray",
      Call.other "glGenBuffers", Call.other "glBindBuffer",
      Call.glBufferData (sizeofGLfloat * (particles * 3)),
      Call.other "glEnableVertexAttribArray", Call.other "glVertexAttribPointer",
      Call.other "glDisable", Call.other "glEnable", Call.other "glBlendFunc"])
    (renderLoop e.shouldClose)

/-- Create, compile and check one stage (main.cpp:147-156, 159-168, 171-180): on failure the
window is destroyed and `main` returns 1, otherwise `next` follows. -/
def compileThen (stage : Stage) (status : Bool) (next : Run) : Run :=
  let chk := check_shader_compile_status stage status
  if !chk.2 then
    ⟨[Call.other "glCreateShader", Call.other "glShaderSource", Call.glCompileShader stage] ++
      chk.1 ++ [Call.glfwDestroyWindow, Call.glfwTerminate], some 1⟩
  else
    Run.after
      ([Call.other "glCreateShader", Call.other "glShaderSource", Call.glCompileShader stage] ++
        chk.1) next

/-- The function `main` (main.cpp:63-345), as far as its calls and exit code depend on the
answers of the services. Debug messages delivered by the driver during these calls are not
part of this embedding; `debugCallbackARB` is embedded on its own. -/
def main (e : Env) : Run :=
  if e.glfwInitOk = false then
    ⟨[Call.glfwInit, Call.cerr "failed to init GLFW"], some 1⟩
  else Run.after [Call.glfwInit, Call.other "glfwGetVersion"] <|
  if e.windowOk = false then
    ⟨[Call.glfwCreateWindow 640 480, Call.cout "failed to open window", Call.glfwTerminate],
      some 1⟩
  else Run.after [Call.glfwCreateWindow 640 480, Call.other "glfwMakeContextCurrent"] <|
  if e.glewInitOk = false then
    ⟨[Call.glewInit, Call.cout "failed to init GLEW", Call.glfwDestroyWindow,
      Call.glfwTerminate], some 1⟩
  else Run.after
    ([Call.glewInit, Call.other "glGetString", Call.cout "Using OpenGL ",
      Call.other "glewGetString", Call.cout "Using GLEW ", Call.cout "Using GLFW ",
      Call.other "glfwExtensionSupported"] ++
     (if e.debugOutput then
        [Call.other "glEnable", Call.glDebugMessageCallbackARB,
         Call.other "glDebugMessageControlARB",
         Call.cout "GL_ARB_debug_output callback installed"]
      else [Call.cout "GL_ARB_debug_output not available. No worries."]) ++
     [Call.other "ImGui_ImplGlfwGL3_Init"]) <|
  compileThen Stage.vertex e.vertexOk <|
  compileThen Stage.geometry e.geometryOk <|
  compileThen Stage.fragment e.fragmentOk <|
  linkAndRun e

/-! ## The fallible startup steps, in source order -/

/-- The startup steps whose failure `main` tests. -/
inductive Step where
  | glfwInit
  | glfwCreateWindow
  | glewInit
  | compileVertex
  | compileGeometry
  | compileFragment
deriving DecidableEq, Repr, Fintype

/-- Position of a step in the source. -/
def Step.idx : Step → Nat
  | .glfwInit => 0
  | .glfwCreateWindow => 1
  | .glewInit => 2
  | .compileVertex => 3
  | .compileGeometry => 4
  | .compileFragment => 5

/-- Whether the step succeeds in the run `e`. -/
def Env.ok (e : Env) : Step → Bool
  | .glfwInit => e.glfwInitOk
  | .glfwCreateWindow => e.windowOk
  | .glewInit => e.glewInitOk
  | .compileVertex => e.vertexOk
  | .compileGeometry => e.geometryOk
  | .compileFragment => e.fragmentOk

/-- The service call that performs the step. -/
def Step.call : Step → Call
  | .glfwInit => Call.glfwInit
  | .glfwCreateWindow => Call.glfwCreateWindow 640 480
  | .glewInit => Call.glewInit
  | .compileVertex => Call.glCompileShader Stage.vertex
  | .compileGeometry => Call.glCompileShader Stage.geometry
  | .compileFragment => Call.glCompileShader Stage.fragment

/-- A run in which everything succeeds except the program link, and the window is
closed after one frame. -/
def linkFailureRun : Env :=
  { glfwInitOk := true, windowOk := true, glewInitOk := true, debugOutput := false,
    vertexOk := true, geometryOk := true, fragmentOk := true, linkOk := false,
    shouldClose := [false, true] }

/-- A run in which the geometry shader fails to compile after a successful start. -/
def geometryFailureRun : Env :=
  { glfwInitOk := true, windowOk := true, glewInitOk := true, debugOutput := true,
    vertexOk := true, geometryOk := false, fragmentOk := true, linkOk := true,
    shouldClose := [false, true] }

/-! ## The debug callback -/

/-- Modelled from the spec: the OpenGL header (`GL/glew.h`) is not under src/; the value is
the one the Khronos registry assigns to `GL_DEBUG_SEVERITY_NOTIFICATION`. -/
def GL_DEBUG_SEVERITY_NOTIFICATION : Nat := 0x826B

/-- Modelled from the spec: header constant, Khronos registry value. -/
def GL_DEBUG_SEVERITY_HIGH : Nat := 0x9146

/-- Modelled from the spec: header constant, Khronos registry value. -/
def GL_DEBUG_SEVERITY_MEDIUM : Nat := 0x9147

/-- Modelled from the spec: header constant, Khronos registry value. -/
def GL_DEBUG_SEVERITY_LOW : Nat := 0x9148

/-- Modelled from the spec: header constant, Khronos registry value. -/
def GL_DEBUG_SOURCE_API : Nat := 0x8246

/-- Modelled from the spec: header constant, Khronos registry value. -/
def GL_DEBUG_SOURCE_WINDOW_SYSTEM : Nat := 0x8247

/-- Modelled from the spec: header constant, Khronos registry value. -/
def GL_DEBUG_SOURCE_SHADER_COMPILER : Nat := 0x8248

/-- Modelled from the spec: header constant, Khronos registry value. -/
def GL_DEBUG_SOURCE_THIRD_PARTY : Nat := 0x8249

/-- Modelled from the spec: header constant, Khronos registry value. -/
def GL_DEBUG_SOURCE_APPLICATION : Nat := 0x824A

/-- Modelled from the spec: header constant, Khronos registry value. -/
def GL_DEBUG_SOURCE_OTHER : Nat := 0x824B

/-- Modelled from the spec: header constant, Khronos registry value. -/
def GL_DEBUG_TYPE_ERROR : Nat := 0x824C

/-- Modelled from the spec: header constant, Khronos registry value (the `_ARB` name is an
alias of `GL_DEBUG_TYPE_ERROR`). -/
def GL_DEBUG_TYPE_ERROR_ARB : Nat := 0x824C

/-- Modelled from the spec: header constant, Khronos registry value. -/
def GL_DEBUG_TYPE_DEPRECATED_BEHAVIOR : Nat := 0x824D

/-- Modelled from the spec: header constant, Khronos registry value. -/
def GL_DEBUG_TYPE_UNDEFINED_BEHAVIOR : Nat := 0x824E

/-- Modelled from the spec: header constant, Khronos registry value. -/
def GL_DEBUG_TYPE_PORTABILITY : Nat := 0x824F

/-- Modelled from the spec: header constant, Khronos registry value. -/
def GL_DEBUG_TYPE_PERFORMANCE : Nat := 0x8250

/-- Modelled from the spec: header constant, Khronos registry value. -/
def GL_DEBUG_TYPE_OTHER : Nat := 0x8251

/-- The function `getStringForSource` (main.cpp:353-371). -/
def getStringForSource (source : Nat) : String :=
  if source = GL_DEBUG_SOURCE_API then "API"
  else if source = GL_DEBUG_SOURCE_WINDOW_SYSTEM then "Window System"
  else if source = GL_DEBUG_SOURCE_SHADER_COMPILER then "Shader Compiler"
  else if source = GL_DEBUG_SOURCE_THIRD_PARTY then "Third Party"
  else if source = GL_DEBUG_SOURCE_APPLICATION then "Application"
  else if source = GL_DEBUG_SOURCE_OTHER then "Other"
  else "n/a"

/-- The function `getStringForSeverity` (main.cpp:374-386). -/
def getStringForSeverity (severity : Nat) : String :=
  if severity = GL_DEBUG_SEVERITY_HIGH then "HIGH!"
  else if severity = GL_DEBUG_SEVERITY_MEDIUM then "Medium"
  else if severity = GL_DEBUG_SEVERITY_LOW then "Low"
  else "n/a"

/-- The function `getStringForType` (main.cpp:389-406). -/
def getStringForType (type : Nat) : String :=
  if type = GL_DEBUG_TYPE_ERROR then "Error"
  else if type = GL_DEBUG_TYPE_DEPRECATED_BEHAVIOR then "Deprecated Behaviour"
  else if type = GL_DEBUG_TYPE_UNDEFINED_BEHAVIOR then "Undefined Behaviour"
  else if type = GL_DEBUG_TYPE_PORTABILITY then "Portability Issue"
  else if type = GL_DEBUG_TYPE_PERFORMANCE then "Performance Issue"
  else if type = GL_DEBUG_TYPE_OTHER then "Other"
  else "n/a"

/-- What one invocation of the debug callback does: the operands it streams to `std::cerr`,
in order, and whether it leaves by `throw std::runtime_error("")`. -/
structure CallbackResult where
  cerr : List String
  raised : Bool
deriving DecidableEq, Repr

/-- The function `debugCallbackARB` (main.cpp:409-423). `GLenum` and `GLuint` values are naturals below
`2 ^ 32`; only equality tests are made on them. -/
def debugCallbackARB (source type id severity : Nat) (message : String) : CallbackResult :=
  if severity ≠ GL_DEBUG_SEVERITY_NOTIFICATION then ⟨[], false⟩
  else
    ⟨["\n",
      "Type: ", getStringForType type, "; Source: ", getStringForSource source, "; ID: ",
      toString id, "; Severity: ", getStringForSeverity severity, "\n",
      message, "\n"],
     decide (type = GL_DEBUG_TYPE_ERROR_ARB)⟩

/-! ## Arithmetic of the generator and of the camera

The draws and the arm index are computed in binary32. The arithmetic on them afterwards is
read as exact arithmetic in an ordered field `R`; the functions of the C math library are the
fields of `Libm`. -/

/-- The functions of the C math library the program calls, and the constant pi. -/
structure Libm (R : Type) where
  sin : R → R
  cos : R → R
  pow : R → R → R
  sqrt : R → R
  pi : R

/-- Rounding of a rational to the nearest integer, a tie going to the even one. -/
def roundNearestEven (x : ℚ) : ℤ :=
  if x - ⌊x⌋ < 1 / 2 then ⌊x⌋
  else if 1 / 2 < x - ⌊x⌋ then ⌊x⌋ + 1
  else if ⌊x⌋ % 2 = 0 then ⌊x⌋ else ⌊x⌋ + 1

/-- The unit in the last place of the binary32 format at `x`: `2 ^ (e - 23)` where
`2 ^ e ≤ |x| < 2 ^ (e + 1)` (24 significant bits). -/
def ulp32 (x : ℚ) : ℚ :=
  (2 : ℚ) ^ (Int.log 2 |x| - 23)

/-- The value of type `float` (IEEE binary32, round to nearest, ties to even) that a
conversion or an arithmetic operation returns for the exact result `x`. The exponent range
of the format is not bounded here: the function agrees with binary32 for
`2 ^ (-126) ≤ |x| < 2 ^ 128` and for `x = 0`, which covers every value rounded in the draws
of the generator when `RAND_MAX` is an `int`. -/
def binary32 (x : ℚ) : ℚ :=
  (roundNearestEven (x / ulp32 x) : ℚ) * ulp32 x

/-- The draw `std::rand() / float(RAND_MAX)` for the value `r` returned by `std::rand()`
(main.cpp:218-232): `r` is converted to `float`, `RAND_MAX` is converted to `float`, and the
division is a `float` division. `RAND_MAX` is a constant of the C library (not under src/),
taken as a parameter. -/
def unitDraw (RAND_MAX r : Nat) : ℚ :=
  binary32 (binary32 (r : ℚ) / binary32 (RAND_MAX : ℚ))

/-- Conversion of a floating value to `int`: truncation toward zero. -/
def truncToInt (x : ℚ) : Int :=
  if 0 ≤ x then ⌊x⌋ else ⌈x⌉

/-- The arm index `int arm = 3 * (std::rand() / float(RAND_MAX));` (main.cpp:218), for the
value `r` returned by `std::rand()`: the product is a `float` product, converted to `int`. -/
def armIndex (RAND_MAX r : Nat) : Int :=
  truncToInt (binary32 (3 * unitDraw RAND_MAX r))

/-- The denominator `(0.1f + std::pow(u, 0.7f))` (main.cpp:219), for the draw `u`. -/
def profileDenominator {R : Type} [LinearOrderedField R] (lib : Libm R) (u : R) : R :=
  0.1 + lib.pow u 0.7

/-- The profile `1 / (0.1f + std::pow(u, 0.7f)) - 1 / 1.1f` (main.cpp:219), for the draw
`u`. -/
def alphaProfile {R : Type} [LinearOrderedField R] (lib : Libm R) (u : R) : R :=
  1 / profileDenominator lib u - 1 / 1.1

/-- The base radius `float r = 4.0f*alpha;` (main.cpp:220). -/
def baseRadius {R : Type} [LinearOrderedField R] (alpha : R) : R :=
  4.0 * alpha

/-- The value of `alpha` after `alpha += arm*2.0f*3.1416f / 3.0f;` (main.cpp:221). -/
def armRotated {R : Type} [LinearOrderedField R] (alpha : R) (arm : Int) : R :=
  alpha + (arm : R) * 2.0 * 3.1416 / 3.0

/-- The jitter amplitude on X and Z, `(4.0f - 0.2*alpha)` (main.cpp:227, 231). -/
def jitterAmplitudeXZ {R : Type} [LinearOrderedField R] (alpha : R) : R :=
  4.0 - 0.2 * alpha

/-- The jitter amplitude on Y, `(2.0f - 0.1*alpha)` (main.cpp:229). -/
def jitterAmplitudeY {R : Type} [LinearOrderedField R] (alpha : R) : R :=
  2.0 - 0.1 * alpha

/-- The jitter term of four draws, `(2 - (u1 + u2 + u3 + u4))` (main.cpp:227-232). -/
def jitter {R : Type} [LinearOrderedField R] (u1 u2 u3 u4 : R) : R :=
  2 - (u1 + u2 + u3 + u4)

/-! ## The point-field generator -/

/-- The index expression `3 * i + k` of the generator (main.cpp:223-231). -/
def slot (i k : Nat) : Nat := 3 * i + k

/-- State of the generator: the vector `vertexData`, the number of `std::rand()` calls made
so far, and the log of the indices stored to (most recent first). -/
structure GenState (R : Type) where
  vertexData : List R
  draws : Nat
  stores : List Nat

/-- The store `vertexData[idx] = v`; `none` when `idx` is out of bounds (undefined behaviour in C++). -/
def GenState.store {R : Type} (s : GenState R) (idx : Nat) (v : R) : Option (GenState R) :=
  if idx < s.vertexData.length then
    some { s with vertexData := s.vertexData.set idx v, stores := idx :: s.stores }
  else none

/-- The update `vertexData[idx] += v`; `none` when `idx` is out of bounds. -/
def GenState.addTo {R : Type} [Add R] (s : GenState R) (idx : Nat) (v : R) :
    Option (GenState R) :=
  match s.vertexData[idx]? with
  | some old => s.store idx (old + v)
  | none => none

/-- The body of the generator loop for particle `i` (main.cpp:218-232). `rand k` is the value
returned by the `k`-th call of `std::rand()`; the body makes 14 calls. The draws and the arm
index are `float` values; the arithmetic on them afterwards is read as exact in `R`. -/
def particleStep {R : Type} [LinearOrderedField R] (lib : Libm R)
    (RAND_MAX : Nat) (rand : Nat → Nat) (i : Nat) (s : GenState R) : Option (GenState R) :=
  let u : Nat → R := fun k => ((unitDraw RAND_MAX (rand (s.draws + k)) : ℚ) : R)
  let arm : Int := armIndex RAND_MAX (rand (s.draws + 0))
  let alpha : R := alphaProfile lib (u 1)
  let r : R := baseRadius alpha
  let alpha : R := armRotated alpha arm
  (s.store (slot i 0) (r * lib.sin alpha)).bind fun s =>
  (s.store (slot i 1) 0).bind fun s =>
  (s.store (slot i 2) (r * lib.cos alpha)).bind fun s =>
  (s.addTo (slot i 0) (jitterAmplitudeXZ alpha * jitter (u 2) (u 3) (u 4) (u 5))).bind fun s =>
  (s.addTo (slot i 1) (jitterAmplitudeY alpha * jitter (u 6) (u 7) (u 8) (u 9))).bind fun s =>
  (s.addTo (slot i 2) (jitterAmplitudeXZ alpha * jitter (u 10) (u 11) (u 12) (u 13))).bind
    fun s => some { s with draws := s.draws + 14 }

/-- The loop `for (int i = 0; i<particles; ++i) { ... }` (main.cpp:216-233), from index `i`
with `todo` iterations left. -/
def generateLoop {R : Type} [LinearOrderedField R] (lib : Libm R)
    (RAND_MAX : Nat) (rand : Nat → Nat) : Nat → Nat → GenState R → Option (GenState R)
  | 0, _, s => some s
  | todo + 1, i, s =>
      (particleStep lib RAND_MAX rand i s).bind (generateLoop lib RAND_MAX rand todo (i + 1))

/-- The generator (main.cpp:214-233) for `n` particles: `std::vector<GLfloat>
vertexData(n * 3)` is value-initialised to zeros, then the loop runs for `i = 0 .. n - 1`. -/
def generate {R : Type} [LinearOrderedField R] (lib : Libm R)
    (RAND_MAX : Nat) (rand : Nat → Nat) (n : Nat) : Option (GenState R) :=
  generateLoop lib RAND_MAX rand n 0 ⟨List.replicate (n * 3) 0, 0, []⟩

/-- The position of a particle as the spec gives it (section 4.1, steps 1 to 6), from the 14
draws that start at call `d` of `std::rand()`: coordinate `k = 0` is
`r*sin(alpha) + (4.0 - 0.2*alpha)*jitter`, `k = 1` is `0 + (2.0 - 0.1*alpha)*jitter`, and any
other `k` is `r*cos(alpha) + (4.0 - 0.2*alpha)*jitter`, with `alpha` the arm-rotated angle. -/
def particleCoord {R : Type} [LinearOrderedField R] (lib : Libm R)
    (RAND_MAX : Nat) (rand : Nat → Nat) (d k : Nat) : R :=
  let u : Nat → R := fun j => ((unitDraw RAND_MAX (rand (d + j)) : ℚ) : R)
  let alpha : R := armRotated (alphaProfile lib (u 1)) (armIndex RAND_MAX (rand (d + 0)))
  let r : R := baseRadius (alphaProfile lib (u 1))
  match k with
  | 0 => r * lib.sin alpha + jitterAmplitudeXZ alpha * jitter (u 2) (u 3) (u 4) (u 5)
  | 1 => 0 + jitterAmplitudeY alpha * jitter (u 6) (u 7) (u 8) (u 9)
  | _ => r * lib.cos alpha + jitterAmplitudeXZ alpha * jitter (u 10) (u 11) (u 12) (u 13)

/-- The indices stored to while generating particle `i`, in program order. -/
def particleStores (i : Nat) : List Nat :=
  [slot i 0, slot i 1, slot i 2, slot i 0, slot i 1, slot i 2]

/-! ## The View matrix

Matrices are `Matrix (Fin 4) (Fin 4) R` with entry `m r c` at row `r`, column `c`; GLM stores
columns, so GLM's `m[c][r]` is `m r c` and GLM's column `m[c]` is `fun r => m r c`. -/

/-- Modelled from the spec: `glm::translate` belongs to the GLM library, which is not under
src/. Transcribed from GLM: `Result = m; Result[3] = m[0]*v[0] + m[1]*v[1] + m[2]*v[2] + m[3]`. -/
def glm_translate {R : Type} [LinearOrderedField R] (m : Matrix (Fin 4) (Fin 4) R) (v : Fin 3 → R) :
    Matrix (Fin 4) (Fin 4) R :=
  Matrix.of fun r c =>
    if c = 3 then m r 0 * v 0 + m r 1 * v 1 + m r 2 * v 2 + m r 3 else m r c

/-- Modelled from the spec: `glm::normalize` (GLM, not under src/):
`v * inversesqrt(dot(v, v))`. -/
def glm_normalize {R : Type} [LinearOrderedField R] (lib : Libm R) (v : Fin 3 → R) : Fin 3 → R :=
  fun i => v i * (1 / lib.sqrt (v 0 * v 0 + v 1 * v 1 + v 2 * v 2))

/-- Modelled from the spec: `glm::radians` (GLM, not under src/). The spec gives the angles
of the camera in degrees, which is the unit `glm::rotate` takes in the GLM releases that
convert with `radians(angle)`. -/
def glm_radians {R : Type} [LinearOrderedField R] (lib : Libm R) (degrees : R) : R :=
  degrees * (lib.pi / 180)

/-- Modelled from the spec: the rotation block `Rotate[c][r]` that `glm::rotate` builds
(GLM, not under src/), from the cosine `c`, the sine `s` and the normalised axis. The first
index is GLM's column, the second GLM's row. -/
def glm_rotateBlock {R : Type} [LinearOrderedField R] (c s : R) (axis : Fin 3 → R) : Fin 3 → Fin 3 → R :=
  let temp : Fin 3 → R := fun i => (1 - c) * axis i
  ![![c + temp 0 * axis 0, temp 0 * axis 1 + s * axis 2, temp 0 * axis 2 - s * axis 1],
    ![temp 1 * axis 0 - s * axis 2, c + temp 1 * axis 1, temp 1 * axis 2 + s * axis 0],
    ![temp 2 * axis 0 + s * axis 1, temp 2 * axis 1 - s * axis 0, c + temp 2 * axis 2]]

/-- Modelled from the spec: `glm::rotate(m, angle, v)` (GLM, not under src/). Transcribed
from GLM: `Result[k] = m[0]*Rotate[k][0] + m[1]*Rotate[k][1] + m[2]*Rotate[k][2]` for
`k = 0, 1, 2` and `Result[3] = m[3]`. -/
def glm_rotate {R : Type} [LinearOrderedField R] (lib : Libm R) (m : Matrix (Fin 4) (Fin 4) R)
    (angle : R) (v : Fin 3 → R) : Matrix (Fin 4) (Fin 4) R :=
  let a := glm_radians lib angle
  let rot := glm_rotateBlock (lib.cos a) (lib.sin a) (glm_normalize lib v)
  Matrix.of fun r c =>
    if c = 0 then m r 0 * rot 0 0 + m r 1 * rot 0 1 + m r 2 * rot 0 2
    else if c = 1 then m r 0 * rot 1 0 + m r 1 * rot 1 1 + m r 2 * rot 1 2
    else if c = 2 then m r 0 * rot 2 0 + m r 1 * rot 2 1 + m r 2 * rot 2 2
    else m r 3

/-- The effective time of `float t = glfwGetTime(); t *= speed;` (main.cpp:277-278). -/
def effectiveTime {R : Type} [LinearOrderedField R] (t0 speed : R) : R :=
  t0 * speed

/-- The angle `30.0f*std::sin(0.1f*t)` of the rotation about X (main.cpp:293). -/
def angleX {R : Type} [LinearOrderedField R] (lib : Libm R) (t : R) : R :=
  30.0 * lib.sin (0.1 * t)

/-- The angle `-22.5f*t` of the rotation about Y (main.cpp:294). -/
def angleY {R : Type} [LinearOrderedField R] (t : R) : R :=
  -22.5 * t

/-- The View matrix of a frame at effective time `t` (main.cpp:290-294). -/
def viewAt {R : Type} [LinearOrderedField R] (lib : Libm R) (t : R) : Matrix (Fin 4) (Fin 4) R :=
  let view := glm_translate (1 : Matrix (Fin 4) (Fin 4) R) ![0.0, 0.0, -50.0]
  let view := glm_rotate lib view (angleX lib t) ![1.0, 0.0, 0.0]
  glm_rotate lib view (angleY t) ![0.0, 1.0, 0.0]

/-- The View matrix of a frame, from the elapsed time and the speed (main.cpp:277-294). -/
def View {R : Type} [LinearOrderedField R] (lib : Libm R) (t0 speed : R) : Matrix (Fin 4) (Fin 4) R :=
  viewAt lib (effectiveTime t0 speed)

/-- The translation matrix by `v`, as the spec names it. -/
def Translate {R : Type} [LinearOrderedField R] (x y z : R) : Matrix (Fin 4) (Fin 4) R :=
  !![1, 0, 0, x;
     0, 1, 0, y;
     0, 0, 1, z;
     0, 0, 0, 1]

/-- The rotation matrix about the X axis by `degrees`, as the spec names it. -/
def Rotate_X {R : Type} [LinearOrderedField R] (lib : Libm R) (degrees : R) : Matrix (Fin 4) (Fin 4) R :=
  let c := lib.cos (degrees * (lib.pi / 180))
  let s := lib.sin (degrees * (lib.pi / 180))
  !![1, 0, 0, 0;
     0, c, -s, 0;
     0, s, c, 0;
     0, 0, 0, 1]

/-- The rotation matrix about the Y axis by `degrees`, as the spec names it. -/
def Rotate_Y {R : Type} [LinearOrderedField R] (lib : Libm R) (degrees : R) : Matrix (Fin 4) (Fin 4) R :=
  let c := lib.cos (degrees * (lib.pi / 180))
  let s := lib.sin (degrees * (lib.pi / 180))
  !![c, 0, s, 0;
     0, 1, 0, 0;
     -s, 0, c, 0;
     0, 0, 0, 1]

/-! ## Lemmas on the main loop -/

theorem renderLoop_exit_ne_one (answers : List Bool) : (renderLoop answers).exit ≠ some 1 := by
  induction answers with
  | nil => simp [renderLoop]
  | cons b rest ih => cases b <;> simp [renderLoop, Run.after, ih]

theorem renderLoop_exit_zero_iff (answers : List Bool) :
    (renderLoop answers).exit = some 0 ↔ true ∈ answers := by
  induction answers with
  | nil => simp [renderLoop]
  | cons b rest ih => cases b <;> simp [renderLoop, Run.after, ih]

theorem renderLoop_exit_none_iff (answers : List Bool) :
    (renderLoop answers).exit = none ↔ true ∉ answers := by
  induction answers with
  | nil => simp [renderLoop]
  | cons b rest ih => cases b <;> simp [renderLoop, Run.after, ih]

theorem renderLoop_close_mem (answers : List Bool) (h : true ∈ answers) :
    Call.glfwWindowShouldClose true ∈ (renderLoop answers).trace := by
  induction answers with
  | nil => simp at h
  | cons b rest ih =>
    cases b
    · simp at h
      simp [renderLoop, Run.after, ih h]
    · simp [renderLoop]

/-! ## Startup failures and exit codes -/

theorem linkAndRun_exit_ne_one (e : Env) : (linkAndRun e).exit ≠ some 1 := by
  simp [linkAndRun, Run.after, renderLoop_exit_ne_one]

/-- C2: if a startup step (glfwInit, glfwCreateWindow, glewInit, compile of the vertex,
geometry or fragment shader) fails and every earlier one succeeded, `main` returns 1, issues
no call of a later startup step, never links, never asks `glfwWindowShouldClose` and never
draws; and `main` returns 0 exactly when all six steps succeeded and `glfwWindowShouldClose`
answered true, in which case the loop condition was reached and that answer is in the trace. -/
theorem main_aborts_at_first_failing_step (e : Env) :
    (∀ s : Step, e.ok s = false → (∀ p : Step, p.idx < s.idx → e.ok p = true) →
      (main e).exit = some 1 ∧
      (∀ l : Step, s.idx < l.idx → l.call ∉ (main e).trace) ∧
      Call.glLinkProgram ∉ (main e).trace ∧
      (∀ b, Call.glfwWindowShouldClose b ∉ (main e).trace) ∧
      (∀ first count, Call.glDrawArrays first count ∉ (main e).trace)) ∧
    ((main e).exit = some 0 ↔ (∀ s : Step, e.ok s = true) ∧ true ∈ e.shouldClose) ∧
    ((main e).exit = some 0 → Call.glfwWindowShouldClose true ∈ (main e).trace) := by
  have hzero : (main e).exit = some 0 →
      (∀ s : Step, e.ok s = true) ∧ true ∈ e.shouldClose ∧
      Call.glfwWindowShouldClose true ∈ (main e).trace := by
    intro h0
    have hi : e.glfwInitOk = true := by
      by_contra hc
      simp [main, hc] at h0
    have hw : e.windowOk = true := by
      by_contra hc
      simp [main, hi, hc, Run.after] at h0
    have hg : e.glewInitOk = true := by
      by_contra hc
      simp [main, hi, hw, hc, Run.after] at h0
    have hv : e.vertexOk = true := by
      by_contra hc
      simp [main, compileThen, check_shader_compile_status, hi, hw, hg, hc, Run.after] at h0
    have hgm : e.geometryOk = true := by
      by_contra hc
      simp [main, compileThen, check_shader_compile_status, hi, hw, hg, hv, hc, Run.after] at h0
    have hf : e.fragmentOk = true := by
      by_contra hc
      simp [main, compileThen, check_shader_compile_status, hi, hw, hg, hv, hgm, hc,
        Run.after] at h0
    have hclose : true ∈ e.shouldClose := by
      simpa [main, compileThen, check_shader_compile_status, linkAndRun, hi, hw, hg, hv, hgm,
        hf, Run.after, renderLoop_exit_zero_iff] using h0
    refine ⟨?_, hclose, ?_⟩
    · intro s
      cases s <;> simp [Env.ok, hi, hw, hg, hv, hgm, hf]
    · have := renderLoop_close_mem e.shouldClose hclose
      simp [main, compileThen, check_shader_compile_status, linkAndRun, hi, hw, hg, hv, hgm,
        hf, Run.after, this]
  refine ⟨?_, ⟨fun h => ⟨(hzero h).1, (hzero h).2.1⟩, ?_⟩, fun h => (hzero h).2.2⟩
  · intro s hfail hprev
    cases s
    · simp only [Env.ok] at hfail
      refine ⟨by simp [main, hfail], ?_, by simp [main, hfail], by simp [main, hfail],
        by simp [main, hfail]⟩
      intro l hl
      cases l <;> simp [Step.idx] at hl
      all_goals simp [main, hfail, Step.call]
    · have h0 := hprev Step.glfwInit (by decide)
      simp only [Env.ok] at hfail h0
      refine ⟨by simp [main, hfail, h0, Run.after], ?_, by simp [main, hfail, h0, Run.after],
        by simp [main, hfail, h0, Run.after], by simp [main, hfail, h0, Run.after]⟩
      intro l hl
      cases l <;> simp [Step.idx] at hl
      all_goals simp [main, hfail, h0, Run.after, Step.call]
    · have h0 := hprev Step.glfwInit (by decide)
      have h1 := hprev Step.glfwCreateWindow (by decide)
      simp only [Env.ok] at hfail h0 h1
      refine ⟨by simp [main, hfail, h0, h1, Run.after], ?_,
        by simp [main, hfail, h0, h1, Run.after],
        by simp [main, hfail, h0, h1, Run.after], by simp [main, hfail, h0, h1, Run.after]⟩
      intro l hl
      cases l <;> simp [Step.idx] at hl
      all_goals simp [main, hfail, h0, h1, Run.after, Step.call]
    · have h0 := hprev Step.glfwInit (by decide)
      have h1 := hprev Step.glfwCreateWindow (by decide)
      have h2 := hprev Step.glewInit (by decide)
      simp only [Env.ok] at hfail h0 h1 h2
      have hd : e.debugOutput = true ∨ e.debugOutput = false := by
        cases e.debugOutput <;> simp
      refine ⟨by simp [main, compileThen, check_shader_compile_status, hfail, h0, h1, h2,
        Run.after], ?_, ?_, ?_, ?_⟩
      · intro l hl
        cases l <;> simp [Step.idx] at hl <;>
          rcases hd with hd | hd <;>
          simp [main, compileThen, check_shader_compile_status, hfail, h0, h1, h2, hd,
            Run.after, Step.call]
      · rcases hd with hd | hd <;>
          simp [main, compileThen, check_shader_compile_status, hfail, h0, h1, h2, hd, Run.after]
      · intro b
        rcases hd with hd | hd <;>
          simp [main, compileThen, check_shader_compile_status, hfail, h0, h1, h2, hd, Run.after]
      · intro first count
        rcases hd with hd | hd <;>
          simp [main, compileThen, check_shader_compile_status, hfail, h0, h1, h2, hd, Run.after]
    · have h0 := hprev Step.glfwInit (by decide)
      have h1 := hprev Step.glfwCreateWindow (by decide)
      have h2 := hprev Step.glewInit (by decide)
      have h3 := hprev Step.compileVertex (by decide)
      simp only [Env.ok] at hfail h0 h1 h2 h3
      have hd : e.debugOutput = true ∨ e.debugOutput = false := by
        cases e.debugOutput <;> simp
      refine ⟨by simp [main, compileThen, check_shader_compile_status, hfail, h0, h1, h2, h3,
        Run.after], ?_, ?_, ?_, ?_⟩
      · intro l hl
        cases l <;> simp [Step.idx] at hl
        rcases hd with hd | hd <;>
          simp [main, compileThen, check_shader_compile_status, hfail, h0, h1, h2, h3, hd,
            Run.after, Step.call]
      · rcases hd with hd | hd <;>
          simp [main, compileThen, check_shader_compile_status, hfail, h0, h1, h2, h3, hd,
            Run.after]
      · intro b
        rcases hd with hd | hd <;>
          simp [main, compileThen, check_shader_compile_status, hfail, h0, h1, h2, h3, hd,
            Run.after]
      · intro first count
        rcases hd with hd | hd <;>
          simp [main, compileThen, check_shader_compile_status, hfail, h0, h1, h2, h3, hd,
            Run.after]
    · have h0 := hprev Step.glfwInit (by decide)
      have h1 := hprev Step.glfwCreateWindow (by decide)
      have h2 := hprev Step.glewInit (by decide)
      have h3 := hprev Step.compileVertex (by decide)
      have h4 := hprev Step.compileGeometry (by decide)
      simp only [Env.ok] at hfail h0 h1 h2 h3 h4
      have hd : e.debugOutput = true ∨ e.debugOutput = false := by
        cases e.debugOutput <;> simp
      refine ⟨by simp [main, compileThen, check_shader_compile_status, hfail, h0, h1, h2, h3,
        h4, Run.after], ?_, ?_, ?_, ?_⟩
      · intro l hl
        cases l <;> simp [Step.idx] at hl
      · rcases hd with hd | hd <;>
          simp [main, compileThen, check_shader_compile_status, hfail, h0, h1, h2, h3, h4, hd,
            Run.after]
      · intro b
        rcases hd with hd | hd <;>
          simp [main, compileThen, check_shader_compile_status, hfail, h0, h1, h2, h3, h4, hd,
            Run.after]
      · intro first count
        rcases hd with hd | hd <;>
          simp [main, compileThen, check_shader_compile_status, hfail, h0, h1, h2, h3, h4, hd,
            Run.after]
  · rintro ⟨hok, hclose⟩
    have hi := hok Step.glfwInit
    have hw := hok Step.glfwCreateWindow
    have hg := hok Step.glewInit
    have hv := hok Step.compileVertex
    have hgm := hok Step.compileGeometry
    have hf := hok Step.compileFragment
    simp only [Env.ok] at hi hw hg hv hgm hf
    simp [main, compileThen, check_shader_compile_status, linkAndRun, hi, hw, hg, hv, hgm,
      hf, Run.after, renderLoop_exit_zero_iff, hclose]

/-- C2, at a concrete run: the geometry shader fails to compile after a successful start. -/
theorem main_aborts_at_first_failing_step_witness :
    (main geometryFailureRun).exit = some 1 ∧
    Call.glCompileShader Stage.fragment ∉ (main geometryFailureRun).trace ∧
    (∀ b, Call.glfwWindowShouldClose b ∉ (main geometryFailureRun).trace) :=
  have h := (main_aborts_at_first_failing_step geometryFailureRun).1
    Step.compileGeometry (by decide) (by decide)
  ⟨h.1, h.2.1 Step.compileFragment (by decide), h.2.2.2.1⟩

/-- C1: in the run `linkFailureRun` all three stages compile and the link fails, yet `main`
enters the loop, draws a frame of `particles` points and returns 0. -/
theorem main_ignores_link_failure :
    (check_program_link_status linkFailureRun.linkOk).2 = false ∧
    (main linkFailureRun).exit = some 0 ∧
    Call.glfwWindowShouldClose false ∈ (main linkFailureRun).trace ∧
    Call.glDrawArrays 0 131072 ∈ (main linkFailureRun).trace := by
  decide

/-! ## The debug callback -/

/-- C8: for every message, the callback writes nothing and does not throw when the severity
is not `GL_DEBUG_SEVERITY_NOTIFICATION`; for a notification it writes the message text and
throws exactly when the type is `GL_DEBUG_TYPE_ERROR`; so it throws iff the severity is
notification and the type is Error. -/
theorem debugCallbackARB_filter (source type id severity : Nat) (message : String) :
    (severity ≠ GL_DEBUG_SEVERITY_NOTIFICATION →
      debugCallbackARB source type id severity message = ⟨[], false⟩) ∧
    (severity = GL_DEBUG_SEVERITY_NOTIFICATION →
      message ∈ (debugCallbackARB source type id severity message).cerr ∧
      ((debugCallbackARB source type id severity message).raised = true ↔
        type = GL_DEBUG_TYPE_ERROR)) ∧
    ((debugCallbackARB source type id severity message).raised = true ↔
      severity = GL_DEBUG_SEVERITY_NOTIFICATION ∧ type = GL_DEBUG_TYPE_ERROR) := by
  refine ⟨?_, ?_, ?_⟩
  · intro h
    simp [debugCallbackARB, h]
  · intro h
    simp [debugCallbackARB, h, GL_DEBUG_TYPE_ERROR, GL_DEBUG_TYPE_ERROR_ARB]
  · by_cases h : severity = GL_DEBUG_SEVERITY_NOTIFICATION
    · simp [debugCallbackARB, h, GL_DEBUG_TYPE_ERROR, GL_DEBUG_TYPE_ERROR_ARB]
    · simp [debugCallbackARB, h]

/-- C8, at concrete messages: an Error-type notification is written and throws, an
Error-type message of high severity is dropped silently. -/
theorem debugCallbackARB_filter_witness :
    ("oops" ∈ (debugCallbackARB 0x8246 0x824C 7 0x826B "oops").cerr ∧
      ((debugCallbackARB 0x8246 0x824C 7 0x826B "oops").raised = true ↔
        0x824C = GL_DEBUG_TYPE_ERROR)) ∧
    debugCallbackARB 0x8246 0x824C 7 0x9146 "oops" = ⟨[], false⟩ :=
  ⟨(debugCallbackARB_filter 0x8246 0x824C 7 0x826B "oops").2.1 (by decide),
   (debugCallbackARB_filter 0x8246 0x824C 7 0x9146 "oops").1 (by decide)⟩

/-! ## Rounding to binary32 and arm selection -/

theorem roundNearestEven_intCast (n : ℤ) : roundNearestEven (n : ℚ) = n := by
  simp [roundNearestEven]

theorem floor_le_roundNearestEven (x : ℚ) : ⌊x⌋ ≤ roundNearestEven x := by
  unfold roundNearestEven
  split_ifs <;> omega

theorem roundNearestEven_le_floor_succ (x : ℚ) : roundNearestEven x ≤ ⌊x⌋ + 1 := by
  unfold roundNearestEven
  split_ifs <;> omega

theorem roundNearestEven_mono {x y : ℚ} (h : x ≤ y) :
    roundNearestEven x ≤ roundNearestEven y := by
  have hf : ⌊x⌋ ≤ ⌊y⌋ := Int.floor_mono h
  rcases lt_or_eq_of_le hf with hlt | heq
  · calc roundNearestEven x ≤ ⌊x⌋ + 1 := roundNearestEven_le_floor_succ x
      _ ≤ ⌊y⌋ := hlt
      _ ≤ roundNearestEven y := floor_le_roundNearestEven y
  · unfold roundNearestEven
    rw [heq]
    have hd : x - (⌊y⌋ : ℚ) ≤ y - (⌊y⌋ : ℚ) := by linarith
    split_ifs <;> first | omega | (exfalso; linarith)

theorem ulp32_pos (x : ℚ) : 0 < ulp32 x := by
  unfold ulp32
  positivity

theorem binary32_zero : binary32 0 = 0 := by
  simp [binary32, roundNearestEven]

theorem binary32_nonneg {x : ℚ} (h : 0 ≤ x) : 0 ≤ binary32 x := by
  unfold binary32
  apply mul_nonneg _ (ulp32_pos x).le
  have : roundNearestEven 0 ≤ roundNearestEven (x / ulp32 x) :=
    roundNearestEven_mono (div_nonneg h (ulp32_pos x).le)
  have h0 : roundNearestEven 0 = 0 := by simpa using roundNearestEven_intCast 0
  rw [h0] at this
  exact_mod_cast this

theorem binary32_le_zpow {x : ℚ} (hx : 0 < x) :
    binary32 x ≤ (2 : ℚ) ^ (Int.log 2 x + 1) := by
  have hu := ulp32_pos x
  have hlt : x < (2 : ℚ) ^ (Int.log 2 x + 1) := by
    exact_mod_cast Int.lt_zpow_succ_log_self (R := ℚ) (b := 2) (by norm_num) x
  have hul : ulp32 x = (2 : ℚ) ^ (Int.log 2 x - 23) := by
    simp [ulp32, abs_of_pos hx]
  have hsplit : (2 : ℚ) ^ (Int.log 2 x + 1) = ((2 ^ 24 : ℤ) : ℚ) * ulp32 x := by
    rw [hul, zpow_add₀ (by norm_num : (2 : ℚ) ≠ 0), zpow_sub₀ (by norm_num : (2 : ℚ) ≠ 0)]
    norm_num
    ring
  have hq : x / ulp32 x ≤ ((2 ^ 24 : ℤ) : ℚ) := by
    rw [div_le_iff₀ hu, ← hsplit]
    exact hlt.le
  have hr := roundNearestEven_mono hq
  rw [roundNearestEven_intCast] at hr
  unfold binary32
  rw [hsplit]
  apply mul_le_mul_of_nonneg_right _ hu.le
  exact_mod_cast hr

theorem zpow_le_binary32 {x : ℚ} (hx : 0 < x) :
    (2 : ℚ) ^ (Int.log 2 x) ≤ binary32 x := by
  have hu := ulp32_pos x
  have hle : (2 : ℚ) ^ (Int.log 2 x) ≤ x := by
    exact_mod_cast Int.zpow_log_le_self (R := ℚ) (b := 2) (by norm_num) hx
  have hul : ulp32 x = (2 : ℚ) ^ (Int.log 2 x - 23) := by
    simp [ulp32, abs_of_pos hx]
  have hsplit : (2 : ℚ) ^ (Int.log 2 x) = ((2 ^ 23 : ℤ) : ℚ) * ulp32 x := by
    rw [hul, zpow_sub₀ (by norm_num : (2 : ℚ) ≠ 0)]
    norm_num
    ring
  have hq : ((2 ^ 23 : ℤ) : ℚ) ≤ x / ulp32 x := by
    rw [le_div_iff₀ hu, ← hsplit]
    exact hle
  have hr := roundNearestEven_mono hq
  rw [roundNearestEven_intCast] at hr
  unfold binary32
  rw [hsplit]
  apply mul_le_mul_of_nonneg_right _ hu.le
  exact_mod_cast hr

theorem binary32_mono {x y : ℚ} (hx : 0 ≤ x) (h : x ≤ y) : binary32 x ≤ binary32 y := by
  rcases eq_or_lt_of_le hx with h0 | hpos
  · rw [← h0, binary32_zero]
    exact binary32_nonneg (hx.trans h)
  · have hy : 0 < y := lt_of_lt_of_le hpos h
    have hlog : Int.log 2 x ≤ Int.log 2 y := Int.log_mono_right hpos h
    rcases lt_or_eq_of_le hlog with hlt | heq
    · calc binary32 x ≤ (2 : ℚ) ^ (Int.log 2 x + 1) := binary32_le_zpow hpos
        _ ≤ (2 : ℚ) ^ (Int.log 2 y) := zpow_le_zpow_right₀ (by norm_num) (by omega)
        _ ≤ binary32 y := zpow_le_binary32 hy
    · have hu : ulp32 x = ulp32 y := by
        simp [ulp32, abs_of_pos hpos, abs_of_pos hy, heq]
      unfold binary32
      rw [hu]
      apply mul_le_mul_of_nonneg_right _ (ulp32_pos y).le
      have := roundNearestEven_mono (div_le_div_of_nonneg_right h (ulp32_pos y).le)
      exact_mod_cast this

theorem binary32_one : binary32 1 = 1 := by
  have hu : ulp32 1 = (2 : ℚ) ^ (-23 : ℤ) := by
    simp [ulp32, Int.log_one_right]
  unfold binary32
  rw [hu]
  have : (1 : ℚ) / 2 ^ (-23 : ℤ) = ((2 ^ 23 : ℤ) : ℚ) := by
    norm_num [zpow_neg]
  rw [this, roundNearestEven_intCast]
  norm_num [zpow_neg]

theorem log2_eq_of_bounds {x : ℚ} (e : ℤ) (h1 : (2 : ℚ) ^ e ≤ x) (h2 : x < (2 : ℚ) ^ (e + 1)) :
    Int.log 2 x = e := by
  have hx : 0 < x := lt_of_lt_of_le (by positivity) h1
  have ha : e ≤ Int.log 2 x :=
    (Int.zpow_le_iff_le_log (R := ℚ) (b := 2) (by norm_num) hx).mp (by exact_mod_cast h1)
  have hb : Int.log 2 x < e + 1 :=
    (Int.lt_zpow_iff_log_lt (R := ℚ) (b := 2) (by norm_num) hx).mp (by exact_mod_cast h2)
  omega

theorem binary32_three : binary32 3 = 3 := by
  have hlog : Int.log 2 (3 : ℚ) = 1 := log2_eq_of_bounds 1 (by norm_num) (by norm_num)
  have hu : ulp32 3 = (2 : ℚ) ^ (-22 : ℤ) := by
    unfold ulp32
    rw [abs_of_pos (by norm_num : (0 : ℚ) < 3), hlog]
    norm_num
  unfold binary32
  rw [hu]
  have : (3 : ℚ) / 2 ^ (-22 : ℤ) = ((3 * 2 ^ 22 : ℤ) : ℚ) := by
    norm_num [zpow_neg]
  rw [this, roundNearestEven_intCast]
  norm_num [zpow_neg]

theorem unitDraw_nonneg (RAND_MAX r : Nat) : 0 ≤ unitDraw RAND_MAX r :=
  binary32_nonneg (div_nonneg (binary32_nonneg (Nat.cast_nonneg r))
    (binary32_nonneg (Nat.cast_nonneg RAND_MAX)))

theorem unitDraw_le_one (RAND_MAX r : Nat) (hr : r ≤ RAND_MAX) : unitDraw RAND_MAX r ≤ 1 := by
  have hab : binary32 (r : ℚ) ≤ binary32 (RAND_MAX : ℚ) :=
    binary32_mono (Nat.cast_nonneg r) (by exact_mod_cast hr)
  have hq : binary32 (r : ℚ) / binary32 (RAND_MAX : ℚ) ≤ 1 :=
    div_le_one_of_le₀ hab (binary32_nonneg (Nat.cast_nonneg RAND_MAX))
  have hq0 : 0 ≤ binary32 (r : ℚ) / binary32 (RAND_MAX : ℚ) :=
    div_nonneg (binary32_nonneg (Nat.cast_nonneg r)) (binary32_nonneg (Nat.cast_nonneg RAND_MAX))
  have := binary32_mono hq0 hq
  rwa [binary32_one] at this

theorem unitDraw_self (RAND_MAX : Nat) (hpos : 0 < RAND_MAX) : unitDraw RAND_MAX RAND_MAX = 1 := by
  have h1 : (1 : ℚ) ≤ (RAND_MAX : ℚ) := by exact_mod_cast hpos
  have hb : (1 : ℚ) ≤ binary32 (RAND_MAX : ℚ) := by
    have := binary32_mono (by norm_num : (0 : ℚ) ≤ 1) h1
    rwa [binary32_one] at this
  have hne : binary32 (RAND_MAX : ℚ) ≠ 0 := by linarith
  unfold unitDraw
  rw [div_self hne, binary32_one]

theorem armIndex_eq_floor (RAND_MAX r : Nat) :
    armIndex RAND_MAX r = ⌊binary32 (3 * unitDraw RAND_MAX r)⌋ := by
  have h : 0 ≤ binary32 (3 * unitDraw RAND_MAX r) :=
    binary32_nonneg (mul_nonneg (by norm_num) (unitDraw_nonneg RAND_MAX r))
  simp [armIndex, truncToInt, h]

theorem armIndex_bounds (RAND_MAX r : Nat) (hr : r ≤ RAND_MAX) :
    0 ≤ armIndex RAND_MAX r ∧ armIndex RAND_MAX r ≤ 3 := by
  rw [armIndex_eq_floor]
  have h0 : 0 ≤ unitDraw RAND_MAX r := unitDraw_nonneg RAND_MAX r
  have h1 : unitDraw RAND_MAX r ≤ 1 := unitDraw_le_one RAND_MAX r hr
  have hp0 : 0 ≤ binary32 (3 * unitDraw RAND_MAX r) :=
    binary32_nonneg (mul_nonneg (by norm_num) h0)
  have hp3 : binary32 (3 * unitDraw RAND_MAX r) ≤ 3 := by
    have := binary32_mono (mul_nonneg (by norm_num) h0)
      (show 3 * unitDraw RAND_MAX r ≤ 3 by linarith)
    rwa [binary32_three] at this
  constructor
  · exact Int.floor_nonneg.mpr hp0
  · have : ⌊binary32 (3 * unitDraw RAND_MAX r)⌋ < 4 := by
      apply Int.floor_lt.mpr
      push_cast
      linarith
    omega

theorem armIndex_self (RAND_MAX : Nat) (hpos : 0 < RAND_MAX) :
    armIndex RAND_MAX RAND_MAX = 3 := by
  rw [armIndex_eq_floor, unitDraw_self RAND_MAX hpos]
  norm_num [binary32_three]

theorem binary32_of_bounds {x : ℚ} (e n : ℤ) (h1 : (2 : ℚ) ^ e ≤ x) (h2 : x < (2 : ℚ) ^ (e + 1))
    (hn : roundNearestEven (x / (2 : ℚ) ^ (e - 23)) = n) :
    binary32 x = (n : ℚ) * (2 : ℚ) ^ (e - 23) := by
  have hx : 0 < x := lt_of_lt_of_le (by positivity) h1
  have hu : ulp32 x = (2 : ℚ) ^ (e - 23) := by
    unfold ulp32
    rw [abs_of_pos hx, log2_eq_of_bounds e h1 h2]
  unfold binary32
  rw [hu, hn]

theorem roundNearestEven_of_near {x : ℚ} (n : ℤ) (h1 : (n : ℚ) - 1 / 2 < x)
    (h2 : x < (n : ℚ) + 1 / 2) : roundNearestEven x = n := by
  unfold roundNearestEven
  have hf1 : ⌊x⌋ ≤ n := by
    have : ⌊x⌋ < n + 1 := Int.floor_lt.mpr (by push_cast; linarith)
    omega
  have hf2 : n - 1 ≤ ⌊x⌋ := Int.le_floor.mpr (by push_cast; linarith)
  have hfl : (⌊x⌋ : ℚ) ≤ x := Int.floor_le x
  have hfl2 : x < (⌊x⌋ : ℚ) + 1 := Int.lt_floor_add_one x
  rcases (by omega : ⌊x⌋ = n ∨ ⌊x⌋ = n - 1) with h | h
  · rw [h]
    have h3 : x - (n : ℚ) < 1 / 2 := by linarith
    simp only [h3, if_true]
  · rw [h]
    have h3 : ¬ (x - ((n - 1 : ℤ) : ℚ) < 1 / 2) := by push_cast; linarith
    have h4 : 1 / 2 < x - ((n - 1 : ℤ) : ℚ) := by push_cast; linarith
    simp only [h3, h4, if_true, if_false]
    omega

/-- With `RAND_MAX = 2^31 - 1` the draw `r = RAND_MAX - 1` gives the arm index 3 as well:
both operands of the division round to `2^31`. -/
theorem armIndex_below_RAND_MAX :
    armIndex 2147483647 2147483646 = 3 := by
  have hM : binary32 ((2147483647 : ℕ) : ℚ) = 2147483648 := by
    rw [binary32_of_bounds 30 (2 ^ 24) (by norm_num) (by norm_num)
      (roundNearestEven_of_near _ (by norm_num) (by norm_num))]
    norm_num
  have hr : binary32 ((2147483646 : ℕ) : ℚ) = 2147483648 := by
    rw [binary32_of_bounds 30 (2 ^ 24) (by norm_num) (by norm_num)
      (roundNearestEven_of_near _ (by norm_num) (by norm_num))]
    norm_num
  rw [armIndex_eq_floor]
  unfold unitDraw
  rw [hM, hr]
  norm_num [binary32_one, binary32_three]

/-- C3, as stated, fails: with `RAND_MAX = 32767` the draw `r = RAND_MAX` gives the arm
index 3, which is not in {0, 1, 2}. -/
theorem armIndex_at_RAND_MAX :
    (32767 : Nat) ≤ 32767 ∧ armIndex 32767 32767 = 3 ∧
    ¬ (armIndex 32767 32767 = 0 ∨ armIndex 32767 32767 = 1 ∨ armIndex 32767 32767 = 2) := by
  have h : armIndex 32767 32767 = 3 := armIndex_self 32767 (by decide)
  refine ⟨le_refl _, h, ?_⟩
  rw [h]
  decide

/-- C3, amended: for every `RAND_MAX > 0` that fits the 32-bit `int` and every
`0 ≤ r ≤ RAND_MAX` the arm index `int(3 * (r / float(RAND_MAX)))`, computed in binary32, is
one of 0, 1, 2, 3; at `r = RAND_MAX` it is 3. -/
theorem armIndex_range (RAND_MAX r : Nat) (hpos : 0 < RAND_MAX) (_hint : RAND_MAX < 2 ^ 31)
    (hr : r ≤ RAND_MAX) :
    (armIndex RAND_MAX r = 0 ∨ armIndex RAND_MAX r = 1 ∨ armIndex RAND_MAX r = 2 ∨
      armIndex RAND_MAX r = 3) ∧
    armIndex RAND_MAX RAND_MAX = 3 := by
  have hb := armIndex_bounds RAND_MAX r hr
  exact ⟨by omega, armIndex_self RAND_MAX hpos⟩

/-- C3, amended, at the draw 20000 with `RAND_MAX = 32767`. -/
theorem armIndex_range_witness :
    (armIndex 32767 20000 = 0 ∨ armIndex 32767 20000 = 1 ∨ armIndex 32767 20000 = 2 ∨
      armIndex 32767 20000 = 3) ∧
    armIndex 32767 32767 = 3 :=
  armIndex_range 32767 20000 (by decide) (by decide) (by decide)

/-! ## The radial profile and the jitter amplitudes -/

theorem pow_profile_bounds (u : ℝ) (h0 : 0 ≤ u) (h1 : u ≤ 1) :
    0 ≤ Real.rpow u 0.7 ∧ Real.rpow u 0.7 ≤ 1 :=
  ⟨Real.rpow_nonneg h0 _, Real.rpow_le_one h0 h1 (by norm_num)⟩

theorem pow_profile_eq_one_iff (u : ℝ) (h0 : 0 ≤ u) (h1 : u ≤ 1) :
    Real.rpow u 0.7 = 1 ↔ u = 1 := by
  constructor
  · intro h
    by_contra hne
    have hlt : u < 1 := lt_of_le_of_ne h1 hne
    have := Real.rpow_lt_one h0 hlt (show (0 : ℝ) < 0.7 by norm_num)
    have h' : u ^ (0.7 : ℝ) = 1 := h
    linarith
  · intro h
    subst h
    exact Real.one_rpow _

theorem alphaProfile_bounds (u : ℝ) (h0 : 0 ≤ u) (h1 : u ≤ 1) :
    0 ≤ alphaProfile ⟨Real.sin, Real.cos, Real.rpow, Real.sqrt, Real.pi⟩ u ∧
    alphaProfile ⟨Real.sin, Real.cos, Real.rpow, Real.sqrt, Real.pi⟩ u ≤ 100 / 11 := by
  obtain ⟨hp0, hp1⟩ := pow_profile_bounds u h0 h1
  simp only [alphaProfile, profileDenominator]
  have hd : (0 : ℝ) < 0.1 + Real.rpow u 0.7 := by linarith [show (0 : ℝ) < 0.1 by norm_num]
  constructor
  · rw [sub_nonneg]
    apply one_div_le_one_div_of_le hd
    have h11 : (0.1 : ℝ) + 1 = 1.1 := by norm_num
    linarith
  · have h : 1 / (0.1 + Real.rpow u 0.7) ≤ 1 / 0.1 := by
      apply one_div_le_one_div_of_le (by norm_num)
      linarith
    have h10 : (1 : ℝ) / 0.1 - 1 / 1.1 = 100 / 11 := by norm_num
    linarith

/-- C4: for every real `u` in [0, 1] the denominator `0.1 + u^0.7` is at least 0.1, the
profile value `alpha = 1/(0.1 + u^0.7) - 1/1.1` lies in [0, 100/11], the base radius
`r = 4*alpha` is non-negative, and `alpha = 0` exactly at `u = 1`. -/
theorem alphaProfile_range (u : ℝ) (h0 : 0 ≤ u) (h1 : u ≤ 1) :
    0.1 ≤ profileDenominator ⟨Real.sin, Real.cos, Real.rpow, Real.sqrt, Real.pi⟩ u ∧
    profileDenominator ⟨Real.sin, Real.cos, Real.rpow, Real.sqrt, Real.pi⟩ u ≠ 0 ∧
    0 ≤ alphaProfile ⟨Real.sin, Real.cos, Real.rpow, Real.sqrt, Real.pi⟩ u ∧
    alphaProfile ⟨Real.sin, Real.cos, Real.rpow, Real.sqrt, Real.pi⟩ u ≤ 100 / 11 ∧
    0 ≤ baseRadius (alphaProfile ⟨Real.sin, Real.cos, Real.rpow, Real.sqrt, Real.pi⟩ u) ∧
    (alphaProfile ⟨Real.sin, Real.cos, Real.rpow, Real.sqrt, Real.pi⟩ u = 0 ↔ u = 1) := by
  obtain ⟨hp0, hp1⟩ := pow_profile_bounds u h0 h1
  obtain ⟨ha0, ha1⟩ := alphaProfile_bounds u h0 h1
  have hden : (0.1 : ℝ) ≤
      profileDenominator ⟨Real.sin, Real.cos, Real.rpow, Real.sqrt, Real.pi⟩ u := by
    simp only [profileDenominator]
    linarith
  have hne : profileDenominator ⟨Real.sin, Real.cos, Real.rpow, Real.sqrt, Real.pi⟩ u ≠ 0 := by
    have hpos : (0 : ℝ) < 0.1 := by norm_num
    exact ne_of_gt (lt_of_lt_of_le hpos hden)
  refine ⟨hden, hne, ha0, ha1, ?_, ?_⟩
  · unfold baseRadius
    linarith
  · rw [← pow_profile_eq_one_iff u h0 h1]
    simp only [alphaProfile, profileDenominator]
    have hd : (0.1 : ℝ) + Real.rpow u 0.7 ≠ 0 := by
      have : (0 : ℝ) < 0.1 + Real.rpow u 0.7 := by linarith [show (0 : ℝ) < 0.1 by norm_num]
      exact this.ne'
    rw [sub_eq_zero, div_eq_div_iff hd (by norm_num)]
    constructor
    · intro h
      linarith
    · intro h
      rw [h]
      norm_num

/-- C4, at `u = 1`: the profile value is 0. -/
theorem alphaProfile_range_witness :
    alphaProfile ⟨Real.sin, Real.cos, Real.rpow, Real.sqrt, Real.pi⟩ (1 : ℝ) = 0 :=
  (alphaProfile_range 1 (by norm_num) (by norm_num)).2.2.2.2.2.mpr rfl

/-- C5: for every real `u` in [0, 1] and every arm index the generator can produce (the
value of `armIndex` at a draw `0 ≤ r ≤ RAND_MAX`), the jitter amplitudes computed from the
arm-rotated `alpha` are non-negative: `4.0 - 0.2*alpha' ≥ 0` and `2.0 - 0.1*alpha' ≥ 0`. -/
theorem jitterAmplitude_nonneg (u : ℝ) (h0 : 0 ≤ u) (h1 : u ≤ 1) (RAND_MAX r : Nat)
    (hr : r ≤ RAND_MAX) :
    0 ≤ jitterAmplitudeXZ
      (armRotated (alphaProfile ⟨Real.sin, Real.cos, Real.rpow, Real.sqrt, Real.pi⟩ u)
        (armIndex RAND_MAX r)) ∧
    0 ≤ jitterAmplitudeY
      (armRotated (alphaProfile ⟨Real.sin, Real.cos, Real.rpow, Real.sqrt, Real.pi⟩ u)
        (armIndex RAND_MAX r)) := by
  obtain ⟨ha0, ha1⟩ := alphaProfile_bounds u h0 h1
  obtain ⟨hb0, hb1⟩ := armIndex_bounds RAND_MAX r hr
  have hc0 : (0 : ℝ) ≤ (armIndex RAND_MAX r : ℝ) := by exact_mod_cast hb0
  have hc1 : (armIndex RAND_MAX r : ℝ) ≤ 3 := by exact_mod_cast hb1
  simp only [jitterAmplitudeXZ, jitterAmplitudeY, armRotated]
  constructor <;> norm_num <;> linarith

/-- C5, at `u = 0` (the largest `alpha`) and the largest arm index. -/
theorem jitterAmplitude_nonneg_witness :
    0 ≤ jitterAmplitudeXZ
      (armRotated (alphaProfile ⟨Real.sin, Real.cos, Real.rpow, Real.sqrt, Real.pi⟩ (0 : ℝ))
        (armIndex 32767 32767)) ∧
    0 ≤ jitterAmplitudeY
      (armRotated (alphaProfile ⟨Real.sin, Real.cos, Real.rpow, Real.sqrt, Real.pi⟩ (0 : ℝ))
        (armIndex 32767 32767)) :=
  jitterAmplitude_nonneg 0 (le_refl 0) (by norm_num) 32767 32767 (le_refl _)

/-! ## The point-field generator -/

theorem GenState.store_eq {R : Type} (s : GenState R) (idx : Nat) (v : R)
    (h : idx < s.vertexData.length) :
    s.store idx v =
      some { s with vertexData := s.vertexData.set idx v, stores := idx :: s.stores } := by
  simp [GenState.store, h]

theorem GenState.addTo_eq {R : Type} [Add R] (s : GenState R) (idx : Nat) (v old : R)
    (h : s.vertexData[idx]? = some old) :
    s.addTo idx v =
      some { s with vertexData := s.vertexData.set idx (old + v), stores := idx :: s.stores } := by
  have hlt : idx < s.vertexData.length := by
    by_contra hc
    rw [List.getElem?_eq_none (by omega)] at h
    cases h
  simp [GenState.addTo, h, GenState.store, hlt]

theorem particleStep_spec {R : Type} [LinearOrderedField R] (lib : Libm R)
    (RAND_MAX : Nat) (rand : Nat → Nat) (i : Nat) (s : GenState R)
    (h : slot i 2 < s.vertexData.length) :
    ∃ s', particleStep lib RAND_MAX rand i s = some s' ∧
      s'.vertexData.length = s.vertexData.length ∧
      s'.stores = (particleStores i).reverse ++ s.stores ∧ s'.draws = s.draws + 14 ∧
      (∀ k, k < 3 →
        s'.vertexData[slot i k]? = some (particleCoord lib RAND_MAX rand s.draws k)) ∧
      (∀ j, j < slot i 0 ∨ slot i 2 < j → s'.vertexData[j]? = s.vertexData[j]?) := by
  have ha : slot i 0 < s.vertexData.length := by unfold slot at h ⊢; omega
  have hb : slot i 1 < s.vertexData.length := by unfold slot at h ⊢; omega
  have hab : slot i 0 ≠ slot i 1 := by unfold slot; omega
  have hac : slot i 0 ≠ slot i 2 := by unfold slot; omega
  have hbc : slot i 1 ≠ slot i 2 := by unfold slot; omega
  unfold particleStep
  simp only []
  rw [GenState.store_eq s _ _ ha]
  simp only [Option.some_bind]
  rw [GenState.store_eq _ _ _ (by simpa using hb)]
  simp only [Option.some_bind]
  rw [GenState.store_eq _ _ _ (by simpa using h)]
  simp only [Option.some_bind]
  rw [GenState.addTo_eq _ _ _ _ (by
    simp [List.getElem?_set, hab, hac, hbc, hab.symm, hac.symm, hbc.symm, ha, hb, h]; rfl)]
  simp only [Option.some_bind]
  rw [GenState.addTo_eq _ _ _ _ (by
    simp [List.getElem?_set, hab, hac, hbc, hab.symm, hac.symm, hbc.symm, ha, hb, h]; rfl)]
  simp only [Option.some_bind]
  rw [GenState.addTo_eq _ _ _ _ (by
    simp [List.getElem?_set, hab, hac, hbc, hab.symm, hac.symm, hbc.symm, ha, hb, h]; rfl)]
  simp only [Option.some_bind]
  refine ⟨_, rfl, by simp, by simp [particleStores], rfl, ?_, ?_⟩
  · intro k hk
    interval_cases k <;>
      simp [List.getElem?_set, hab, hac, hbc, hab.symm, hac.symm, hbc.symm, ha, hb, h,
        particleCoord]
  · intro j hj
    have h0 : slot i 0 ≠ j := by unfold slot at hj ⊢; omega
    have h1 : slot i 1 ≠ j := by unfold slot at hj ⊢; omega
    have h2 : slot i 2 ≠ j := by unfold slot at hj ⊢; omega
    simp [List.getElem?_set, h0, h1, h2]

theorem generateLoop_spec {R : Type} [LinearOrderedField R] (lib : Libm R)
    (RAND_MAX : Nat) (rand : Nat → Nat) (todo : Nat) :
    ∀ (i : Nat) (s : GenState R), 3 * (i + todo) ≤ s.vertexData.length →
      ∃ s', generateLoop lib RAND_MAX rand todo i s = some s' ∧
        s'.vertexData.length = s.vertexData.length ∧
        s'.stores.reverse = s.stores.reverse ++ (List.range' i todo).flatMap particleStores ∧
        s'.draws = s.draws + 14 * todo ∧
        (∀ p k, i ≤ p → p < i + todo → k < 3 →
          s'.vertexData[slot p k]? =
            some (particleCoord lib RAND_MAX rand (s.draws + 14 * (p - i)) k)) ∧
        (∀ j, j < slot i 0 → s'.vertexData[j]? = s.vertexData[j]?) := by
  induction todo with
  | zero =>
    intro i s _
    refine ⟨s, rfl, rfl, by simp, by simp, ?_, fun _ _ => rfl⟩
    intro p k h1 h2
    omega
  | succ n ih =>
    intro i s hlen
    obtain ⟨s1, e1, l1, w1, d1, c1, u1⟩ := particleStep_spec lib RAND_MAX rand i s
      (by unfold slot; omega)
    obtain ⟨s2, e2, l2, w2, d2, c2, u2⟩ := ih (i + 1) s1 (by omega)
    refine ⟨s2, by simp [generateLoop, e1, e2], by omega, ?_, by omega, ?_, ?_⟩
    · rw [w2, w1, List.range'_succ]
      simp
    · intro p k h1 h2 hk
      rcases Nat.eq_or_lt_of_le h1 with heq | hlt
      · subst heq
        rw [u2 (slot i k) (by unfold slot; omega), c1 k hk]
        simp
      · rw [c2 p k (by omega) (by omega) hk, d1]
        congr 2
        omega
    · intro j hj
      rw [u2 j (by unfold slot at hj ⊢; omega), u1 j (Or.inl hj)]

theorem generate_spec {R : Type} [LinearOrderedField R] (lib : Libm R)
    (RAND_MAX : Nat) (rand : Nat → Nat) (n : Nat) :
    ∃ s, generate lib RAND_MAX rand n = some s ∧ s.vertexData.length = n * 3 ∧
      s.stores.reverse = (List.range n).flatMap particleStores ∧ s.draws = 14 * n ∧
      (∀ p k, p < n → k < 3 →
        s.vertexData[slot p k]? = some (particleCoord lib RAND_MAX rand (14 * p) k)) := by
  obtain ⟨s, e, l, w, d, c, _⟩ := generateLoop_spec lib RAND_MAX rand n 0
    ⟨List.replicate (n * 3) 0, 0, []⟩ (by simp; omega)
  refine ⟨s, e, by simpa using l, ?_, by simpa using d, ?_⟩
  · simpa [List.range_eq_range'] using w
  · intro p k hp hk
    simpa using c p k (Nat.zero_le p) (by omega) hk

theorem mem_particleStores (idx i : Nat) :
    idx ∈ particleStores i ↔ idx = slot i 0 ∨ idx = slot i 1 ∨ idx = slot i 2 := by
  simp only [particleStores, List.mem_cons, List.mem_singleton, List.not_mem_nil, or_false]
  tauto

/-- C9: the generator, run for `particles = 131072` particles on a vector of
`particles * 3` floats (a size within `int`), completes with every store in bounds; it
makes 14 draws a particle and stores to exactly the slots
`3i, 3i+1, 3i+2` for `i = 0 .. particles - 1` in that order, the slots of distinct particles
are disjoint, the vector keeps its size, every slot of it is written: slot `3i + k` holds
coordinate `k` of particle `i`, so every index below `3 * particles` holds a coordinate of
the particle `idx / 3`; and the only draw call of a frame submits `particles` points
starting at 0. -/
theorem generator_storage {R : Type} [LinearOrderedField R] (lib : Libm R)
    (RAND_MAX : Nat) (rand : Nat → Nat) :
    particles = 131072 ∧ particles * 3 < 2 ^ 31 ∧
    (∃ s, generate lib RAND_MAX rand particles = some s ∧
      s.vertexData.length = 3 * particles ∧
      s.stores.reverse = (List.range particles).flatMap particleStores ∧
      s.draws = 14 * particles ∧
      (∀ idx, idx < 3 * particles → idx ∈ s.stores) ∧
      (∀ idx, idx ∈ s.stores → idx < 3 * particles) ∧
      (∀ i k, i < particles → k < 3 →
        s.vertexData[slot i k]? = some (particleCoord lib RAND_MAX rand (14 * i) k)) ∧
      (∀ idx, idx < 3 * particles →
        s.vertexData[idx]? =
          some (particleCoord lib RAND_MAX rand (14 * (idx / 3)) (idx % 3)))) ∧
    (∀ i, i < particles →
      slot i 0 < 3 * particles ∧ slot i 1 < 3 * particles ∧ slot i 2 < 3 * particles) ∧
    (∀ i j k l, k < 3 → l < 3 → slot i k = slot j l → i = j ∧ k = l) ∧
    (∀ first count, Call.glDrawArrays first count ∈ frameCalls →
      first = 0 ∧ count = particles) ∧
    Call.glDrawArrays 0 particles ∈ frameCalls := by
  refine ⟨by decide, by decide, ?_, ?_, ?_, ?_, ?_⟩
  · obtain ⟨s, e, l, w, d, c⟩ := generate_spec lib RAND_MAX rand particles
    have hmem : ∀ idx, idx ∈ s.stores ↔ ∃ i, i < particles ∧ idx ∈ particleStores i := by
      intro idx
      rw [← List.mem_reverse, w, List.mem_flatMap]
      simp [List.mem_range]
    refine ⟨s, e, by omega, w, d, ?_, ?_, c, ?_⟩
    · intro idx hidx
      rw [hmem]
      refine ⟨idx / 3, by omega, ?_⟩
      rw [mem_particleStores]
      unfold slot
      omega
    · intro idx hidx
      rw [hmem] at hidx
      obtain ⟨i, hi, hmem'⟩ := hidx
      rw [mem_particleStores] at hmem'
      unfold slot at hmem'
      omega
    · intro idx hidx
      have hs : idx = slot (idx / 3) (idx % 3) := by unfold slot; omega
      have := c (idx / 3) (idx % 3) (by omega) (Nat.mod_lt _ (by norm_num))
      rwa [← hs] at this
  · intro i hi
    unfold slot
    omega
  · intro i j k l hk hl h
    unfold slot at h
    omega
  · intro first count h
    simpa [frameCalls] using h
  · simp [frameCalls]

/-! ## The View matrix -/

theorem glm_translate_eq_mul {R : Type} [LinearOrderedField R] (m : Matrix (Fin 4) (Fin 4) R)
    (v : Fin 3 → R) : glm_translate m v = m * Translate (v 0) (v 1) (v 2) := by
  ext r c
  fin_cases r <;> fin_cases c <;>
    simp [glm_translate, Translate, Matrix.mul_apply, Fin.sum_univ_four, Matrix.vecHead,
      Matrix.vecTail]

theorem glm_normalize_X {R : Type} [LinearOrderedField R] (lib : Libm R)
    (hs : lib.sqrt 1 = 1) : glm_normalize lib ![1.0, 0.0, 0.0] = ![1, 0, 0] := by
  ext i
  fin_cases i <;> norm_num [glm_normalize, hs]

theorem glm_normalize_Y {R : Type} [LinearOrderedField R] (lib : Libm R)
    (hs : lib.sqrt 1 = 1) : glm_normalize lib ![0.0, 1.0, 0.0] = ![0, 1, 0] := by
  ext i
  fin_cases i <;> norm_num [glm_normalize, hs]

theorem glm_rotateBlock_X {R : Type} [LinearOrderedField R] (c s : R) :
    glm_rotateBlock c s ![1, 0, 0] = ![![1, 0, 0], ![0, c, s], ![0, -s, c]] := by
  simp [glm_rotateBlock]

theorem glm_rotateBlock_Y {R : Type} [LinearOrderedField R] (c s : R) :
    glm_rotateBlock c s ![0, 1, 0] = ![![c, 0, -s], ![0, 1, 0], ![s, 0, c]] := by
  simp [glm_rotateBlock]

theorem glm_rotate_X_eq_mul {R : Type} [LinearOrderedField R] (lib : Libm R)
    (hs : lib.sqrt 1 = 1) (m : Matrix (Fin 4) (Fin 4) R) (angle : R) :
    glm_rotate lib m angle ![1.0, 0.0, 0.0] = m * Rotate_X lib angle := by
  ext r c
  simp only [glm_rotate, glm_normalize_X lib hs, glm_rotateBlock_X, glm_radians]
  fin_cases c <;>
    simp [Rotate_X, Matrix.mul_apply, Fin.sum_univ_four, Matrix.vecHead, Matrix.vecTail]

theorem glm_rotate_Y_eq_mul {R : Type} [LinearOrderedField R] (lib : Libm R)
    (hs : lib.sqrt 1 = 1) (m : Matrix (Fin 4) (Fin 4) R) (angle : R) :
    glm_rotate lib m angle ![0.0, 1.0, 0.0] = m * Rotate_Y lib angle := by
  ext r c
  simp only [glm_rotate, glm_normalize_Y lib hs, glm_rotateBlock_Y, glm_radians]
  fin_cases c <;>
    simp [Rotate_Y, Matrix.mul_apply, Fin.sum_univ_four, Matrix.vecHead, Matrix.vecTail]

theorem viewAt_eq_mul {R : Type} [LinearOrderedField R] (lib : Libm R)
    (hs : lib.sqrt 1 = 1) (t : R) :
    viewAt lib t =
      Translate 0 0 (-50) * Rotate_X lib (angleX lib t) * Rotate_Y lib (angleY t) := by
  simp only [viewAt]
  rw [glm_rotate_Y_eq_mul lib hs, glm_rotate_X_eq_mul lib hs, glm_translate_eq_mul, one_mul]
  norm_num

theorem glm_rotate_last_column {R : Type} [LinearOrderedField R] (lib : Libm R)
    (m : Matrix (Fin 4) (Fin 4) R) (angle : R) (v : Fin 3 → R) (r : Fin 4) :
    glm_rotate lib m angle v r 3 = m r 3 := by
  simp [glm_rotate]

theorem glm_rotate_last_row {R : Type} [LinearOrderedField R] (lib : Libm R)
    (m : Matrix (Fin 4) (Fin 4) R) (angle : R) (v : Fin 3 → R)
    (h0 : m 3 0 = 0) (h1 : m 3 1 = 0) (h2 : m 3 2 = 0) (c : Fin 4) :
    glm_rotate lib m angle v 3 c = if c = 3 then m 3 3 else 0 := by
  fin_cases c <;> simp [glm_rotate, h0, h1, h2]

theorem glm_translate_one {R : Type} [LinearOrderedField R] :
    glm_translate (1 : Matrix (Fin 4) (Fin 4) R) ![0.0, 0.0, -50.0] = Translate 0 0 (-50) := by
  rw [glm_translate_eq_mul, one_mul]
  norm_num

theorem Translate_last_column {R : Type} [LinearOrderedField R] (x y z : R) (r : Fin 4) :
    Translate x y z r 3 = ![x, y, z, 1] r := by
  fin_cases r <;> simp [Translate, Matrix.vecHead, Matrix.vecTail]

theorem Translate_last_row {R : Type} [LinearOrderedField R] (x y z : R) (c : Fin 4) :
    Translate x y z 3 c = ![0, 0, 0, 1] c := by
  fin_cases c <;> simp [Translate, Matrix.vecHead, Matrix.vecTail]

theorem Rotate_X_zero (lib : Libm ℝ) (hs : lib.sin 0 = 0) (hc : lib.cos 0 = 1) :
    Rotate_X lib 0 = 1 := by
  ext r c
  fin_cases r <;> fin_cases c <;> simp [Rotate_X, hs, hc, Matrix.vecHead, Matrix.vecTail]

theorem Rotate_Y_zero (lib : Libm ℝ) (hs : lib.sin 0 = 0) (hc : lib.cos 0 = 1) :
    Rotate_Y lib 0 = 1 := by
  ext r c
  fin_cases r <;> fin_cases c <;> simp [Rotate_Y, hs, hc, Matrix.vecHead, Matrix.vecTail]

/-- C6: whenever the effective time `t = t0 * speed` is 0, both rotation angles are 0 and
the View matrix is the pure translation by (0, 0, -50), whose rotation part is the identity;
with `speed = 0` the View matrix is the same for all elapsed times. -/
theorem View_at_time_zero (t0 speed : ℝ) (h : t0 * speed = 0) :
    angleX ⟨Real.sin, Real.cos, Real.rpow, Real.sqrt, Real.pi⟩ (effectiveTime t0 speed) = 0 ∧
    angleY (effectiveTime t0 speed) = 0 ∧
    View ⟨Real.sin, Real.cos, Real.rpow, Real.sqrt, Real.pi⟩ t0 speed = Translate 0 0 (-50) ∧
    (∀ a b : ℝ, View ⟨Real.sin, Real.cos, Real.rpow, Real.sqrt, Real.pi⟩ a 0 =
      View ⟨Real.sin, Real.cos, Real.rpow, Real.sqrt, Real.pi⟩ b 0) := by
  have hX : angleX ⟨Real.sin, Real.cos, Real.rpow, Real.sqrt, Real.pi⟩
      (effectiveTime t0 speed) = 0 := by
    simp [angleX, effectiveTime, h]
  have hY : angleY (effectiveTime t0 speed) = 0 := by
    simp [angleY, effectiveTime, h]
  refine ⟨hX, hY, ?_, ?_⟩
  · unfold View
    rw [viewAt_eq_mul _ Real.sqrt_one, hX, hY, Rotate_X_zero _ Real.sin_zero Real.cos_zero,
      Rotate_Y_zero _ Real.sin_zero Real.cos_zero, mul_one, mul_one]
  · intro a b
    simp [View, effectiveTime]

/-- C6, at elapsed time 12.5 s and speed 0. -/
theorem View_at_time_zero_witness :
    View ⟨Real.sin, Real.cos, Real.rpow, Real.sqrt, Real.pi⟩ 12.5 0 = Translate 0 0 (-50) :=
  (View_at_time_zero 12.5 0 (by norm_num)).2.2.1

theorem rotate_then_translate_entry {R : Type} [LinearOrderedField R] (lib : Libm R)
    (a b : R) :
    (Rotate_Y lib b * Rotate_X lib a * Translate 0 0 (-50) : Matrix (Fin 4) (Fin 4) R) 1 3 =
      50 * lib.sin (a * (lib.pi / 180)) := by
  simp [Rotate_X, Rotate_Y, Translate, Matrix.mul_apply, Fin.sum_univ_four, Matrix.vecHead,
    Matrix.vecTail]
  ring

/-- C7, as stated, fails: at elapsed time 2 s and the initial speed 0.5 (so `t = 1`) the View
matrix differs from the product
`Rotate_Y(-22.5 t) * Rotate_X(30 sin(0.1 t)) * Translate(0, 0, -50)`: entry (1, 3) of the
View matrix is 0, that of the product is `50 * sin(30 * sin(0.1))` (angle in degrees), which
is positive. -/
theorem View_ne_rotate_then_translate :
    View ⟨Real.sin, Real.cos, Real.rpow, Real.sqrt, Real.pi⟩ 2 0.5 ≠
      Rotate_Y ⟨Real.sin, Real.cos, Real.rpow, Real.sqrt, Real.pi⟩
          (angleY (effectiveTime 2 0.5)) *
        Rotate_X ⟨Real.sin, Real.cos, Real.rpow, Real.sqrt, Real.pi⟩
          (angleX ⟨Real.sin, Real.cos, Real.rpow, Real.sqrt, Real.pi⟩ (effectiveTime 2 0.5)) *
        Translate 0 0 (-50) := by
  intro h
  have h13 := congrFun (congrFun h 1) 3
  have hl : View ⟨Real.sin, Real.cos, Real.rpow, Real.sqrt, Real.pi⟩ 2 0.5 1 3 = 0 := by
    simp [View, viewAt, glm_rotate_last_column, glm_translate_one, Translate_last_column]
  rw [hl, rotate_then_translate_entry] at h13
  have ht : effectiveTime (2 : ℝ) 0.5 = 1 := by
    norm_num [effectiveTime]
  have hpi : (3 : ℝ) < Real.pi := Real.pi_gt_three
  have hs0 : 0 < Real.sin (0.1 * 1) :=
    Real.sin_pos_of_pos_of_lt_pi (by norm_num) (by norm_num; linarith)
  have hs1 : Real.sin (0.1 * 1) ≤ 1 := Real.sin_le_one _
  have hx0 : 0 < 30.0 * Real.sin (0.1 * 1) * (Real.pi / 180) := by positivity
  have hx1 : 30.0 * Real.sin (0.1 * 1) * (Real.pi / 180) < Real.pi := by
    have : 30.0 * Real.sin (0.1 * 1) * (Real.pi / 180) ≤ 30.0 * 1 * (Real.pi / 180) := by
      gcongr
    have h30 : (30.0 : ℝ) * 1 * (Real.pi / 180) = Real.pi / 6 := by ring
    linarith
  have hpos := Real.sin_pos_of_pos_of_lt_pi hx0 hx1
  simp only [angleX, ht] at h13
  linarith

/-- C7, amended: for every elapsed time and speed the View matrix equals the product
`Translate(0, 0, -50) * Rotate_X(30 sin(0.1 t)) * Rotate_Y(-22.5 t)` with `t = t0 * speed`,
in that left-to-right order (angles in degrees). -/
theorem View_eq_translate_then_rotate (t0 speed : ℝ) :
    View ⟨Real.sin, Real.cos, Real.rpow, Real.sqrt, Real.pi⟩ t0 speed =
      Translate 0 0 (-50) *
        Rotate_X ⟨Real.sin, Real.cos, Real.rpow, Real.sqrt, Real.pi⟩
          (angleX ⟨Real.sin, Real.cos, Real.rpow, Real.sqrt, Real.pi⟩
            (effectiveTime t0 speed)) *
        Rotate_Y ⟨Real.sin, Real.cos, Real.rpow, Real.sqrt, Real.pi⟩
          (angleY (effectiveTime t0 speed)) :=
  viewAt_eq_mul _ Real.sqrt_one _

/-- C10: for every elapsed time and speed (over any ordered field and any math library) the
View matrix maps the world origin (0, 0, 0, 1) to (0, 0, -50, 1): its last column is
(0, 0, -50, 1) and its last row is (0, 0, 0, 1), so only the upper-left 3x3 block depends
on the time. -/
theorem View_fixes_origin_distance {R : Type} [LinearOrderedField R] (lib : Libm R)
    (t0 speed : R) :
    Matrix.mulVec (View lib t0 speed) ![0, 0, 0, 1] = ![0, 0, -50, 1] ∧
    (∀ r, View lib t0 speed r 3 = ![0, 0, -50, 1] r) ∧
    (∀ c, View lib t0 speed 3 c = ![0, 0, 0, 1] c) := by
  have hcol : ∀ r, View lib t0 speed r 3 = ![0, 0, -50, 1] r := by
    intro r
    simp only [View, viewAt, glm_rotate_last_column, glm_translate_one, Translate_last_column]
  have hrow : ∀ c, View lib t0 speed 3 c = ![0, 0, 0, 1] c := by
    intro c
    simp only [View, viewAt]
    have hT : ∀ k, Translate (0 : R) 0 (-50) 3 k = ![0, 0, 0, 1] k := Translate_last_row 0 0 (-50)
    have hT0 := hT 0
    have hT1 := hT 1
    have hT2 := hT 2
    simp only [Matrix.cons_val_zero, Matrix.cons_val_one, Matrix.cons_val_two,
      Matrix.head_cons, Matrix.tail_cons] at hT0 hT1 hT2
    have hR := glm_rotate_last_row lib (Translate 0 0 (-50)) (angleX lib (effectiveTime t0 speed))
      ![1.0, 0.0, 0.0] hT0 hT1 hT2
    rw [glm_translate_one,
      glm_rotate_last_row lib _ _ _ (by simp [hR]) (by simp [hR]) (by simp [hR]), hR]
    fin_cases c <;> simp [Translate, Matrix.vecHead, Matrix.vecTail]
  refine ⟨?_, hcol, hrow⟩
  ext r
  rw [← hcol r]
  simp [Matrix.mulVec, Matrix.dotProduct, Fin.sum_univ_four]

end CMRender
